import Mathlib

/-
Verification development for the voice-AI session-orchestration server
(src/server.py, src/agents.py, src/story_data.py).

The relevant parts of the program are embedded shallowly:

* the per-connection session-manager loop body (server.py:154-188) as a
  pure iteration function over an explicit task list;
* the five mode run-functions (run_chat_session, run_qa_session,
  run_intro_session, run_stopped_session, run_trigger_session) as pure
  functions from their inputs (story registry, backend response trace,
  classifier verdicts, greeting table, ...) to the list of messages sent
  to the client plus the values enqueued on the control queue;
* the metadata filter, closing-phrase detection, timeout-checker bodies
  and the answer matcher of story_data.py as pure functions.

Wall-clock time, the asynchronous scheduling of tasks, and network I/O are
abstracted: backend traffic is an explicit list of responses, elapsed-time
comparisons are explicit boolean inputs, and the asynchronous completion
classifier (monitor_session) is an oracle of type String -> Bool.  The
response handlers of qa/intro/stopped both emit messages and update the
mode state dict; the embedding computes the two with separate functions
(`...StateStep` for the state mutation, `partEmits`/`...Step` for the
emissions) over the same response.
-/

namespace EchoSrv

/-! ### Character-list string primitives

Python string operations used by the server, reimplemented over `List Char`
so that every definition reduces inside the kernel. -/

/-- `headMatches needle haystack` is true iff `needle` is an initial
segment of `haystack` (helper for the Python `in` substring test). -/
def headMatches : List Char → List Char → Bool
  | [], _ => true
  | _ :: _, [] => false
  | a :: as, b :: bs => if a = b then headMatches as bs else false

/-- `listContainsSub needle haystack`: `needle` occurs contiguously inside
`haystack` (the Python `needle in haystack` test on strings). -/
def listContainsSub (needle : List Char) : List Char → Bool
  | [] => headMatches needle []
  | b :: bs => headMatches needle (b :: bs) || listContainsSub needle bs

/-- Python `needle in haystack` substring containment. -/
def containsSubstr (needle haystack : String) : Bool :=
  listContainsSub needle.data haystack.data

/-- Python `str.lower()` (all text involved is ASCII). -/
def pyLower (s : String) : String := ⟨s.data.map Char.toLower⟩

/-- Python `str.strip()`: remove leading and trailing whitespace. -/
def pyStrip (s : String) : String :=
  ⟨((s.data.dropWhile Char.isWhitespace).reverse.dropWhile Char.isWhitespace).reverse⟩

/-- Python `str.startswith(pre)`. -/
def pyStartsWith (s pre : String) : Bool := headMatches pre.data s.data

/-- One step of Python `str.replace` with the remaining fuel; every pattern
used by the server is a non-empty literal, and fuel = length of the scanned
text suffices since each step consumes at least one character. -/
def listReplaceGo (pattern repl : List Char) : Nat → List Char → List Char
  | _, [] => []
  | 0, l => l
  | fuel + 1, a :: rest =>
    if headMatches pattern (a :: rest) then
      repl ++ listReplaceGo pattern repl fuel ((a :: rest).drop pattern.length)
    else
      a :: listReplaceGo pattern repl fuel rest

/-- Python `s.replace(pattern, repl)` (replace all occurrences, left to
right, non-overlapping). -/
def pyReplace (s pattern repl : String) : String :=
  ⟨listReplaceGo pattern.data repl.data s.data.length s.data⟩

/-! ### Data carried on the wire -/

/-- One part of a backend response turn (google.genai `Part`): it can carry
inline audio data (abstracted to a byte list) and/or text. -/
structure Part where
  inline_data : Option (List Nat)
  text : Option String
  deriving DecidableEq

/-- One backend response event (`response.server_content`): the parts of the
current model turn (empty list when `model_turn` is absent or empty) and the
turn-complete flag. -/
structure Response where
  parts : List Part
  turn_complete : Bool
  deriving DecidableEq

/-- A message sent from the server to the client: a binary audio frame or
one of the JSON control envelopes.  Payloads that no claim depends on
(sample rates, chapter names, the transcript role field) are abstracted to
the mode string / text. -/
inductive Msg where
  | config (mode : String)
  | audioOut (data : List Nat)
  | transcript (text : String)
  | turn_complete
  | qa_complete (score : Nat)
  | intro_complete
  | stopped_complete
  | errorMsg (message : String)
  deriving DecidableEq

/-- Is this message a `config` notification? -/
def isConfig : Msg → Bool
  | .config _ => true
  | _ => false

/-- Number of `config` notifications in a message list. -/
def countConfig (msgs : List Msg) : Nat := msgs.countP isConfig

/-! ### Metadata filter (agents.py:77-98, used at server.py:429-441,
603-615, 778-790) -/

/-- METADATA_FILTER_KEYWORDS from agents.py:77-98, verbatim. -/
def metadata_filter_keywords : List String :=
  ["validating", "analyzing", "structuring", "finalizing", "interpreting",
   "initiating", "formulating", "assessing", "defining", "refining",
   "considering", "approach", "crafting", "i\x27ve crafted", "my mission",
   "my aim", "i will ask", "i\x27ve registered", "i\x27m starting", "i\x27ve initiated",
   "i\x27ve refined", "i have acknowledged", "i\x27ve confirmed", "i\x27m pivoting",
   "i\x27ve successfully", "i\x27m honing", "i am prepared", "dialogue sequence",
   "opening question", "interaction", "checklist", "confidence is high",
   "i\x27ve just finished", "i\x27m now ready", "my thought process", "i am going to",
   "i\x27ve reached the conclusion", "i\x27m compelled to", "i see the user",
   "i have successfully confirmed", "context dictates", "i am preparing",
   "i\x27ve formulated", "i\x27m focusing on", "i\x27m working on", "i\x27ve got the",
   "i\x27ve streamlined", "i\x27ve made the questions", "i\x27ve devised",
   "i\x27ve finalized", "i\x27m starting the interaction", "i\x27m ready to begin",
   "here are the questions", "here\x27s how i will proceed", "q1:", "q2:", "q3:", "q4:",
   "first, i\x27ll ask", "then, i\x27ll ask", "next, i will ask", "finally, i will inquire",
   "my questions are locked in", "i have planned my questions",
   "i\x27m revisiting", "i\x27ve crafted", "i\x27ve registered", "i\x27ve determined",
   "i will present the questions", "i will make a new version",
   "identifying", "asking", "devising", "presenting", "reviewing", "script",
   "questions locked in", "preparing my queries", "refining my greeting", "finalizing my dialogue"]

/-- The metadata-filter test applied to a stripped text chunk
(server.py:434-437 and the identical copies at 608-611, 783-786):
`content.startswith("**") or content.startswith("(") or
any(x in content_lower for x in metadata_keywords)`. -/
def isFilteredMetadata (content : String) : Bool :=
  pyStartsWith content "**" || pyStartsWith content "(" ||
    metadata_filter_keywords.any (fun x => containsSubstr x (pyLower content))

/-! ### Shared outbound part processing (server.py:426-441 = 600-615 =
775-790, the per-response part loop of qa / intro / stopped) -/

/-- The messages one part produces in the qa/intro/stopped part loop:
inline audio is forwarded verbatim; non-empty text is stripped and
forwarded as a transcript unless the metadata filter matches. -/
def partEmits (p : Part) : List Msg :=
  (match p.inline_data with
    | some d => [Msg.audioOut d]
    | none => []) ++
  (match p.text with
    | some s =>
      if s = "" then []
      else if isFilteredMetadata (pyStrip s) then []
      else [Msg.transcript (pyStrip s)]
    | none => [])

/-- The contribution of one part to the accumulated `turn_text`
(server.py:431: `turn_text += " " + content`, appended before the filter
runs, so filtered text still feeds the closing detector). -/
def partTurnText (p : Part) : String :=
  match p.text with
  | some s => if s = "" then "" else " " ++ pyStrip s
  | none => ""

/-- The messages emitted by the qa/intro/stopped part loop over one
response's parts, in order. -/
def processPartsMsgs : List Part → List Msg
  | [] => []
  | p :: rest => partEmits p ++ processPartsMsgs rest

/-- The `turn_text` accumulated by the qa/intro/stopped part loop over one
response's parts. -/
def processPartsText : List Part → String
  | [] => ""
  | p :: rest => partTurnText p ++ processPartsText rest

/-- What the spec's metadata-filter sentence says survives: the stripped
text of every non-empty text chunk that does not start with `**` or `(`
and contains no filter keyword. -/
def spec_forwarded_transcripts (parts : List Part) : List String :=
  parts.filterMap (fun p =>
    match p.text with
    | some s =>
      if s = "" then none
      else if isFilteredMetadata (pyStrip s) then none
      else some (pyStrip s)
    | none => none)

/-- The transcript texts occurring in a message list, in order. -/
def transcriptsOf (msgs : List Msg) : List String :=
  msgs.filterMap (fun m =>
    match m with
    | .transcript c => some c
    | _ => none)

/-! ### Chat mode (run_chat_session, server.py:224-308) -/

/-- Chat's part loop (server.py:272-280): audio forwarded verbatim and
every non-empty text part forwarded as a transcript, unstripped and with
no metadata filter. -/
def chatParts : List Part → List Msg
  | [] => []
  | p :: rest =>
    (match p.inline_data with
      | some d => [Msg.audioOut d]
      | none => []) ++
    (match p.text with
      | some s => if s = "" then [] else [Msg.transcript s]
      | none => []) ++
    chatParts rest

/-- Chat's handling of one backend response (server.py:266-282). -/
def chatStep (r : Response) : List Msg :=
  (if r.parts.isEmpty then [] else chatParts r.parts) ++
    (if r.turn_complete then [Msg.turn_complete] else [])

/-- Chat's receive loop over a backend response trace. -/
def chatLoop : List Response → List Msg
  | [] => []
  | r :: rest => chatStep r ++ chatLoop rest

/-- What chat's receive loop forwards as transcripts according to the
source: every non-empty text part, verbatim (no strip, no filter). -/
def chat_forwarded_texts (parts : List Part) : List String :=
  parts.filterMap (fun p =>
    match p.text with
    | some s => if s = "" then none else some s
    | none => none)

/-- Chat's timeout checker body (server.py:285-292): when the inactivity
threshold is exceeded it enqueues "idle" on the control queue and ends the
session; chat has no `is_closing` flag. -/
def check_timeout_puts (elapsed_over : Bool) : List String :=
  if elapsed_over then ["idle"] else []

/-- run_chat_session (server.py:224-308): the config notification is sent
first (line 231, before the backend stream is opened); `open_ok` is whether
`live.connect` succeeded.  On open failure the exception is caught and
logged (lines 305-308) and nothing is enqueued on the control queue; the
run function's own code never enqueues anything (the only chat put comes
from `check_timeout_puts`).  Result: (messages to client, control-queue
puts made by the run function body and its except clauses). -/
def run_chat_session_run (open_ok : Bool) (responses : List Response) :
    List Msg × List String :=
  if open_ok then
    (Msg.config "chat" :: chatLoop responses, [])
  else
    ([Msg.config "chat"], [])

/-! ### Story data (story_data.py) -/

/-- story_data.Question. -/
structure Question where
  question_no : Nat
  question_text : String
  expected_answers : List String
  deriving DecidableEq

/-- story_data.Question.check_answer (story_data.py:20-41): lowercase and
strip the user's answer, drop the filler substrings "the ", "a ", "an "
(sequential global replaces), then accept on exact match, cleaned match,
either-way substring containment, or any cleaned expected word longer than
3 characters occurring in the cleaned answer. -/
def Question.check_answer (q : Question) (user_answer : String) : Bool :=
  let user_lower := pyStrip (pyLower user_answer)
  let user_clean := pyReplace (pyReplace (pyReplace user_lower "the " "") "a " "") "an " ""
  q.expected_answers.any (fun expected =>
    let expected_lower := pyStrip (pyLower expected)
    let expected_clean :=
      pyReplace (pyReplace (pyReplace expected_lower "the " "") "a " "") "an " ""
    (expected_lower = user_lower) || (expected_clean = user_clean) ||
    containsSubstr expected_clean user_clean ||
    containsSubstr user_clean expected_clean ||
    (expected_clean.split Char.isWhitespace).any
      (fun word => word.length > 3 && containsSubstr word user_clean))

/-- story_data.Chapter. -/
structure Chapter where
  chapter_id : String
  chapter_name : String
  summary : String
  questions : List Question
  deriving DecidableEq

/-- story_data.Story; the chapters dict is an insertion-ordered
association list. -/
structure Story where
  story_id : String
  story_name : String
  chapters : List (String × Chapter)
  deriving DecidableEq

/-- Story.get_chapter (story_data.py:60-61). -/
def Story.get_chapter (s : Story) (chapter_id : String) : Option Chapter :=
  (s.chapters.find? (fun p => p.1 = chapter_id)).map (·.2)

/-- story_data.get_story (story_data.py:281-283): dictionary lookup of the
lowercased id; the registry is passed explicitly. -/
def get_story (stories : List (String × Story)) (story_id : String) : Option Story :=
  (stories.find? (fun p => p.1 = pyLower story_id)).map (·.2)

/-- A small concrete chapter used to exercise the success paths. -/
def demoChapter : Chapter :=
  { chapter_id := "1", chapter_name := "Dust and Dishes", summary := "", questions := [] }

/-- A one-chapter story for concrete evaluations. -/
def demoStory : Story :=
  { story_id := "s", story_name := "Demo", chapters := [("1", demoChapter)] }

/-- The registry containing only `demoStory` under id "s". -/
def demoStories : List (String × Story) := [("s", demoStory)]

/-! ### QA mode (run_qa_session, server.py:310-520) -/

/-- The mutable qa_state dict (server.py:322-329); `last_activity` (a wall
clock stamp) is abstracted away, elapsed-time tests appear as explicit
booleans in the timeout checker. -/
structure QAState where
  question_index : Nat
  is_closing : Bool
  attempts : Nat
  waiting_for_answer : Bool
  turn_count : Nat
  deriving DecidableEq

/-- qa_state as initialised at server.py:322-329. -/
def qaInitState : QAState :=
  { question_index := 0, is_closing := false, attempts := 0,
    waiting_for_answer := true, turn_count := 0 }

/-- The closing-phrase vocabulary tested at server.py:472 (both the ASCII
and the typographic-apostrophe spellings appear in the source). -/
def qa_closing_phrases : List String :=
  ["let’s start the next chapter", "let\x27s start the next chapter",
   "see you when it’s done", "see you when it\x27s done",
   "that was so much fun"]

/-- The qa_state mutation performed while handling one backend response
(server.py:419-476).  When the response carries turn parts, `turn_count`
is incremented (once per response object, server.py:424); then — only when
the accumulated stripped turn text is non-empty and `turn_count > 1` — the
completion monitor (`monitor_session`, an asynchronous secondary model
call modelled as the oracle `monitor`) and the lexical closing-phrase test
may set `is_closing := true` (server.py:445-474). -/
def qaStateStep (monitor : String → Bool) (s : QAState) (r : Response) : QAState :=
  if r.parts.isEmpty then s
  else
    let s1 := { s with turn_count := s.turn_count + 1 }
    let full_text := pyStrip (processPartsText r.parts)
    if full_text ≠ "" ∧ s1.turn_count > 1 then
      if monitor full_text ||
          qa_closing_phrases.any (fun p => containsSubstr p (pyLower full_text)) then
        { s1 with is_closing := true }
      else s1
    else s1

/-- QA's handling of one backend response (server.py:419-490): the state
mutation of `qaStateStep`, the part-loop emissions, and the turn-complete
handling — if `is_closing` the terminal `qa_complete` with the literal
score 100 is emitted and the receive loop returns (halt = true,
server.py:478-482); otherwise a plain `turn_complete` is emitted. -/
def qaStep (monitor : String → Bool) (s : QAState) (r : Response) :
    QAState × List Msg × Bool :=
  let s2 := qaStateStep monitor s r
  let base := if r.parts.isEmpty then [] else processPartsMsgs r.parts
  if r.turn_complete then
    if s2.is_closing then (s2, base ++ [Msg.qa_complete 100], true)
    else (s2, base ++ [Msg.turn_complete], false)
  else (s2, base, false)

/-- QA's receive loop over a backend response trace; stops when a step
halts (the `return` after emitting qa_complete, server.py:482). -/
def qaRunLoop (monitor : String → Bool) : QAState → List Response → QAState × List Msg
  | s, [] => (s, [])
  | s, r :: rest =>
    match qaStep monitor s r with
    | (s1, msgs, true) => (s1, msgs)
    | (s1, msgs, false) =>
      let k := qaRunLoop monitor s1 rest
      (k.1, msgs ++ k.2)

/-- check_qa_timeout body (server.py:494-505): on timeout it sends a forced
goodbye instruction to the backend and returns; it mutates no qa_state
field (in particular it never touches `is_closing`). -/
def check_qa_timeout_iter (elapsed_over : Bool) (s : QAState) : QAState := s

/-- One iteration of QA's inbound audio relay (forward_audio,
server.py:386-397): dequeue one chunk, then if `is_closing` exit without
forwarding (`none`), else forward the chunk to the backend (`some`). -/
def qa_forward_audio_iter (is_closing : Bool) (chunk : List Nat) : Option (List Nat) :=
  if is_closing then none else some chunk

/-- run_qa_session (server.py:310-520).  Story/chapter lookup failure sends
an error and returns without enqueuing anything (lines 315-317); otherwise
the config notification is emitted (line 331) before the backend stream is
opened, and both the normal completion path (line 517) and the
exception path (lines 518-520) enqueue "idle". -/
def run_qa_session_run (stories : List (String × Story)) (story_id chapter_id : String)
    (open_ok : Bool) (monitor : String → Bool) (responses : List Response) :
    List Msg × List String :=
  match get_story stories story_id with
  | none => ([Msg.errorMsg "Story/Chapter not found"], [])
  | some st =>
    match st.get_chapter chapter_id with
    | none => ([Msg.errorMsg "Story/Chapter not found"], [])
    | some _ =>
      if open_ok then
        (Msg.config "qa" :: (qaRunLoop monitor qaInitState responses).2, ["idle"])
      else
        ([Msg.config "qa"], ["idle"])

/-! ### Intro mode (run_intro_session, server.py:522-677) -/

/-- The intro_state dict (server.py:533-538), wall clock abstracted. -/
structure IntroState where
  is_closing : Bool
  turn_count : Nat
  true_turn_count : Nat
  deriving DecidableEq

/-- intro_state as initialised at server.py:533-538. -/
def introInitState : IntroState :=
  { is_closing := false, turn_count := 0, true_turn_count := 0 }

/-- Intro's closing vocabulary (server.py:621-625). -/
def intro_closing_keywords : List String :=
  ["adventure awaits", "let\x27s get this story started",
   "here we go", "can\x27t wait for you to hear",
   "what happens next"]

/-- The intro_state mutation performed while handling one backend response
(server.py:593-631).  The lexical test is guarded by
`true_turn_count > 0`, so the opening turn is exempt; intro has no
secondary classifier. -/
def introStateStep (s : IntroState) (r : Response) : IntroState :=
  if r.parts.isEmpty then s
  else
    let s1 := { s with turn_count := s.turn_count + 1 }
    let full_text := pyStrip (processPartsText r.parts)
    if full_text ≠ "" then
      if s1.true_turn_count > 0 ∧
          intro_closing_keywords.any (fun p => containsSubstr p (pyLower full_text)) then
        { s1 with is_closing := true }
      else s1
    else s1

/-- Intro's handling of one backend response (server.py:593-642):
`true_turn_count` is incremented on each turn-complete (line 634) before
the closing check; if `is_closing` the terminal intro_complete is emitted
and the loop returns. -/
def introStep (s : IntroState) (r : Response) : IntroState × List Msg × Bool :=
  let s2 := introStateStep s r
  let base := if r.parts.isEmpty then [] else processPartsMsgs r.parts
  if r.turn_complete then
    let s3 := { s2 with true_turn_count := s2.true_turn_count + 1 }
    if s3.is_closing then (s3, base ++ [Msg.intro_complete], true)
    else (s3, base ++ [Msg.turn_complete], false)
  else (s2, base, false)

/-- Intro's receive loop over a backend response trace. -/
def introRunLoop : IntroState → List Response → IntroState × List Msg
  | s, [] => (s, [])
  | s, r :: rest =>
    match introStep s r with
    | (s1, msgs, true) => (s1, msgs)
    | (s1, msgs, false) =>
      let k := introRunLoop s1 rest
      (k.1, msgs ++ k.2)

/-- check_intro_timeout body (server.py:648-662): sends the forced closing
line to the backend and returns; it mutates no intro_state field. -/
def check_intro_timeout_iter (elapsed_over : Bool) (s : IntroState) : IntroState := s

/-- One iteration of Intro's inbound audio relay (forward_audio,
server.py:567-578): the `is_closing` early-exit is commented out in the
source (lines 571-572), so every dequeued chunk is forwarded regardless of
the closing flag. -/
def intro_forward_audio_iter (is_closing : Bool) (chunk : List Nat) : Option (List Nat) :=
  some chunk

/-- run_intro_session (server.py:522-677): story lookup failure sends an
error and returns without enqueuing (lines 526-528); otherwise config is
emitted (line 540) before the backend opens, and both the completion path
(line 674) and the exception path (675-677) enqueue "idle". -/
def run_intro_session_run (stories : List (String × Story)) (story_id : String)
    (open_ok : Bool) (responses : List Response) : List Msg × List String :=
  match get_story stories story_id with
  | none => ([Msg.errorMsg "Story not found"], [])
  | some _ =>
    if open_ok then
      (Msg.config "intro" :: (introRunLoop introInitState responses).2, ["idle"])
    else
      ([Msg.config "intro"], ["idle"])

/-! ### Stopped mode (run_stopped_session, server.py:679-859) -/

/-- The stopped_state dict (server.py:692-698), wall clock abstracted. -/
structure StoppedState where
  is_closing : Bool
  turn_count : Nat
  true_turn_count : Nat
  timeout_prompt_sent : Bool
  deriving DecidableEq

/-- stopped_state as initialised at server.py:692-698. -/
def stoppedInitState : StoppedState :=
  { is_closing := false, turn_count := 0, true_turn_count := 0,
    timeout_prompt_sent := false }

/-- Stopped's closing vocabulary (server.py:796-799). -/
def stopped_closing_keywords : List String :=
  ["talk to you later", "see ya", "everyone needs a break sometimes",
   "insert my card", "bye"]

/-- The stopped_state mutation performed while handling one backend
response (server.py:768-803), same shape as intro with its own
vocabulary. -/
def stoppedStateStep (s : StoppedState) (r : Response) : StoppedState :=
  if r.parts.isEmpty then s
  else
    let s1 := { s with turn_count := s.turn_count + 1 }
    let full_text := pyStrip (processPartsText r.parts)
    if full_text ≠ "" then
      if s1.true_turn_count > 0 ∧
          stopped_closing_keywords.any (fun p => containsSubstr p (pyLower full_text)) then
        { s1 with is_closing := true }
      else s1
    else s1

/-- Stopped's handling of one backend response (server.py:768-814):
`true_turn_count` is incremented on each turn-complete (line 806) before
the closing check; if `is_closing` the terminal stopped_complete is
emitted and the loop returns. -/
def stoppedStep (s : StoppedState) (r : Response) : StoppedState × List Msg × Bool :=
  let s2 := stoppedStateStep s r
  let base := if r.parts.isEmpty then [] else processPartsMsgs r.parts
  if r.turn_complete then
    let s3 := { s2 with true_turn_count := s2.true_turn_count + 1 }
    if s3.is_closing then (s3, base ++ [Msg.stopped_complete], true)
    else (s3, base ++ [Msg.turn_complete], false)
  else (s2, base, false)

/-- Stopped's receive loop over a backend response trace. -/
def stoppedRunLoop : StoppedState → List Response → StoppedState × List Msg
  | s, [] => (s, [])
  | s, r :: rest =>
    match stoppedStep s r with
    | (s1, msgs, true) => (s1, msgs)
    | (s1, msgs, false) =>
      let k := stoppedRunLoop s1 rest
      (k.1, msgs ++ k.2)

/-- check_stopped_timeout body, one wake-up (server.py:820-844); the two
elapsed-time comparisons are passed as booleans.  Past the terminate
threshold (and not already closing) it forces the goodbye line and sets
`is_closing := true`; past the prompt threshold (once, and not already
closing) it sends a nudge and records `timeout_prompt_sent`. -/
def check_stopped_timeout_iter (over_terminate over_prompt : Bool)
    (s : StoppedState) : StoppedState :=
  if over_terminate && !s.is_closing then
    { s with is_closing := true }
  else if over_prompt && !s.timeout_prompt_sent && !s.is_closing then
    { s with timeout_prompt_sent := true }
  else s

/-- One iteration of Stopped's inbound audio relay (forward_audio,
server.py:746-755): no `is_closing` test at all; every dequeued chunk is
forwarded. -/
def stopped_forward_audio_iter (is_closing : Bool) (chunk : List Nat) : Option (List Nat) :=
  some chunk

/-- run_stopped_session (server.py:679-859): story/chapter lookup failure
sends an error and returns without enqueuing (lines 684-686); otherwise
config is emitted (line 700) before the backend opens, and both the
completion path (line 856) and the exception path (857-859) enqueue
"idle". -/
def run_stopped_session_run (stories : List (String × Story)) (story_id chapter_id : String)
    (open_ok : Bool) (responses : List Response) : List Msg × List String :=
  match get_story stories story_id with
  | none => ([Msg.errorMsg "Story/Chapter not found"], [])
  | some st =>
    match st.get_chapter chapter_id with
    | none => ([Msg.errorMsg "Story/Chapter not found"], [])
    | some _ =>
      if open_ok then
        (Msg.config "stopped" :: (stoppedRunLoop stoppedInitState responses).2, ["idle"])
      else
        ([Msg.config "stopped"], ["idle"])

/-! ### Trigger mode (run_trigger_session, server.py:861-889) -/

/-- The trigger value extracted from a "trigger" command by
message_receiver (server.py:208): `data.get("trigger", "")`, so an absent
field yields the empty string. -/
def trigger_command_value (field_value : Option String) : String :=
  field_value.getD ""

/-- The message-collection loop (server.py:866-869): for every greeting
event whose lowercased name contains the lowercased trigger, extend the
message list with that event's messages, in table order. -/
def collect_trigger_messages : List (String × List String) → String → List String
  | [], _ => []
  | (event, msgs) :: rest, trigger =>
    if containsSubstr (pyLower trigger) (pyLower event) then
      msgs ++ collect_trigger_messages rest trigger
    else
      collect_trigger_messages rest trigger

/-- The union of every configured event's messages, in table order. -/
def all_greeting_messages : List (String × List String) → List String
  | [] => []
  | (_, msgs) :: rest => msgs ++ all_greeting_messages rest

/-- `random.choice(messages)` (server.py:876) modelled by an arbitrary
index `pick` reduced modulo the list length. -/
def trigger_chosen_message (greetings : List (String × List String))
    (trigger : String) (pick : Nat) : String :=
  let messages := collect_trigger_messages greetings trigger
  messages.getD (pick % messages.length) ""

/-- The chunked audio streaming loop (server.py:881-884): one binary frame
per 4800-byte slice, fuel-encoded with fuel = data length (each iteration
consumes at least one byte). -/
def chunkAudioGo : Nat → List Nat → List Msg
  | _, [] => []
  | 0, l => [Msg.audioOut l]
  | fuel + 1, a :: rest =>
    Msg.audioOut ((a :: rest).take 4800) :: chunkAudioGo fuel ((a :: rest).drop 4800)

/-- Stream `data` in 4800-byte chunks. -/
def chunkAudio (data : List Nat) : List Msg := chunkAudioGo data.length data

/-- run_trigger_session (server.py:861-889).  If no greeting event matches
the trigger name, an error is sent and "chat" is enqueued (lines 871-874).
Otherwise one message is chosen, "Kian" is replaced by the child's name,
and the cached audio is looked up (`cached_audio`, the external
render-or-cache collaborator).  If audio is available (non-empty bytes) a
config is sent, the audio is streamed in chunks and a turn_complete is
sent; "idle" is enqueued afterward in every matched case (line 889). -/
def run_trigger_session_run (greetings : List (String × List String))
    (trigger child_name : String) (pick : Nat)
    (cached_audio : String → Option (List Nat)) : List Msg × List String :=
  let messages := collect_trigger_messages greetings trigger
  if messages.isEmpty then
    ([Msg.errorMsg ("No audio for " ++ trigger)], ["chat"])
  else
    let message := pyReplace (trigger_chosen_message greetings trigger pick) "Kian" child_name
    match cached_audio message with
    | some data =>
      if data.isEmpty then ([], ["idle"])
      else (Msg.config "trigger" :: chunkAudio data ++ [Msg.turn_complete], ["idle"])
    | none => ([], ["idle"])

/-! ### Session-manager loop (session_manager, server.py:154-188) -/

/-- The lifecycle of an asyncio task as far as the manager can observe:
running, cancellation requested (`task.cancel()` was called but the task
has not yet been scheduled to propagate the CancelledError), or done. -/
inductive TaskStatus where
  | running
  | cancelRequested
  | done
  deriving DecidableEq

/-- An activation task held in `state["active_tasks"]`, tagged with the
activation it belongs to. -/
structure SMTask where
  activation : Nat
  status : TaskStatus
  deriving DecidableEq

/-- `task.cancel()` (server.py:161): requests cooperative cancellation; a
running task becomes cancel-requested, not done — completion would require
awaiting the task, which the loop never does. -/
def cancelTask (t : SMTask) : SMTask :=
  match t.status with
  | .running => { t with status := .cancelRequested }
  | _ => t

/-- One iteration of the session_manager loop body up to the blocking
control-queue read (server.py:155-182): cancel every task of the previous
activation (no await), reset the task list, and immediately create the new
mode's task (for idle and unknown modes no task is created).  Returns
(previous tasks after the cancel requests, the new active task list). -/
def session_manager_iter (active_tasks : List SMTask) (new_activation : Nat)
    (mode : String) : List SMTask × List SMTask :=
  let prev := active_tasks.map cancelTask
  let started :=
    if mode = "chat" ∨ mode = "qa" ∨ mode = "intro" ∨ mode = "stopped" ∨ mode = "trigger"
    then [SMTask.mk new_activation TaskStatus.running]
    else []
  (prev, started)

/-- The session modes run as background activations. -/
inductive SMode where
  | chat
  | qa
  | intro
  | stopped
  | trigger
  deriving DecidableEq

/-- What each run function's exception handling does when an unhandled
exception (including backend open failure) escapes its body:
`some puts` = the exception is caught and logged and `puts` are enqueued
on the control queue; `none` = the run function has no handler at all.
Sources: chat server.py:305-308 (logs only), qa 518-520, intro 675-677,
stopped 857-859 (each logs and enqueues "idle"), trigger 861-889 (no
try/except). -/
def session_exception_handled : SMode → Option (List String)
  | .chat => some []
  | .qa => some ["idle"]
  | .intro => some ["idle"]
  | .stopped => some ["idle"]
  | .trigger => none

/-! ### Helper lemmas -/

/-- The empty needle is contained in every character list. -/
theorem listContainsSub_nil (l : List Char) : listContainsSub [] l = true := by
  cases l <;> simp [listContainsSub, headMatches]

/-- Python's `"" in s` is always true. -/
theorem containsSubstr_nil (s : String) : containsSubstr "" s = true := by
  unfold containsSubstr
  exact listContainsSub_nil s.data

/-- countConfig distributes over append. -/
theorem countConfig_append (a b : List Msg) :
    countConfig (a ++ b) = countConfig a + countConfig b := by
  simp [countConfig, List.countP_append]

/-- Every message one part emits in the shared loop is an audio frame or a
transcript. -/
theorem partEmits_shape (p : Part) :
    ∀ m ∈ partEmits p, (∃ c, m = Msg.audioOut c) ∨ ∃ t, m = Msg.transcript t := by
  intro m hm
  obtain ⟨di, dt⟩ := p
  unfold partEmits at hm
  rw [List.mem_append] at hm
  rcases hm with hm | hm
  · cases di with
    | none => simp at hm
    | some d =>
      simp at hm
      exact Or.inl ⟨d, hm⟩
  · cases dt with
    | none => simp at hm
    | some s =>
      by_cases hs : s = ""
      · simp [hs] at hm
      · by_cases hf : isFilteredMetadata (pyStrip s)
        · simp [hs, hf] at hm
        · simp [hs, hf] at hm
          exact Or.inr ⟨_, hm⟩

/-- Every message the shared part loop emits is an audio frame or a
transcript. -/
theorem processPartsMsgs_shape (parts : List Part) :
    ∀ m ∈ processPartsMsgs parts,
      (∃ c, m = Msg.audioOut c) ∨ ∃ t, m = Msg.transcript t := by
  induction parts with
  | nil => intro m hm; simp [processPartsMsgs] at hm
  | cons p rest ih =>
    intro m hm
    rw [processPartsMsgs, List.mem_append] at hm
    rcases hm with hm | hm
    · exact partEmits_shape p m hm
    · exact ih m hm

/-- The shared part loop never emits a config notification. -/
theorem processPartsMsgs_countConfig (parts : List Part) :
    countConfig (processPartsMsgs parts) = 0 := by
  unfold countConfig
  rw [List.countP_eq_zero]
  intro m hm
  rcases processPartsMsgs_shape parts m hm with ⟨c, rfl⟩ | ⟨t, rfl⟩ <;> simp [isConfig]

/-- The shared part loop never emits a qa_complete. -/
theorem processPartsMsgs_no_qa_complete (parts : List Part) (n : Nat) :
    Msg.qa_complete n ∉ processPartsMsgs parts := by
  intro h
  rcases processPartsMsgs_shape parts _ h with ⟨c, hc⟩ | ⟨t, ht⟩
  · simp at hc
  · simp at ht

/-- The messages of one qa step are the shared part-loop messages followed
by nothing, a turn_complete, or the terminal qa_complete with score 100. -/
theorem qaStep_msgs_shape (monitor : String → Bool) (s : QAState) (r : Response) :
    ∃ tail, (qaStep monitor s r).2.1
        = (if r.parts.isEmpty then [] else processPartsMsgs r.parts) ++ tail
      ∧ (tail = [] ∨ tail = [Msg.turn_complete] ∨ tail = [Msg.qa_complete 100]) := by
  unfold qaStep
  by_cases htc : r.turn_complete
  · by_cases hcl : (qaStateStep monitor s r).is_closing
    · exact ⟨[Msg.qa_complete 100], by simp [htc, hcl], by simp⟩
    · exact ⟨[Msg.turn_complete], by simp [htc, hcl], by simp⟩
  · exact ⟨[], by simp [htc], by simp⟩

/-- The qa receive loop never emits a config. -/
theorem qaRunLoop_countConfig (monitor : String → Bool) (s : QAState) (rs : List Response) :
    countConfig (qaRunLoop monitor s rs).2 = 0 := by
  induction rs generalizing s with
  | nil => rfl
  | cons r rest ih =>
    have hmsgs : countConfig (qaStep monitor s r).2.1 = 0 := by
      obtain ⟨tail, heq, htail⟩ := qaStep_msgs_shape monitor s r
      rw [heq, countConfig_append]
      have h1 : countConfig (if r.parts.isEmpty then [] else processPartsMsgs r.parts) = 0 := by
        split
        · rfl
        · exact processPartsMsgs_countConfig r.parts
      have h2 : countConfig tail = 0 := by
        rcases htail with rfl | rfl | rfl <;> simp [countConfig, List.countP_cons, isConfig]
      omega
    rcases h : qaStep monitor s r with ⟨s1, msgs, halt⟩
    rw [h] at hmsgs
    cases halt <;> simp [qaRunLoop, h, countConfig_append, hmsgs, ih]

/-- Any qa_complete emitted by a single qa step carries score 100. -/
theorem qaStep_score (monitor : String → Bool) (s : QAState) (r : Response) (n : Nat)
    (h : Msg.qa_complete n ∈ (qaStep monitor s r).2.1) : n = 100 := by
  obtain ⟨tail, heq, htail⟩ := qaStep_msgs_shape monitor s r
  rw [heq, List.mem_append] at h
  rcases h with h | h
  · have hbase : Msg.qa_complete n ∉
        (if r.parts.isEmpty then [] else processPartsMsgs r.parts) := by
      split
      · simp
      · exact processPartsMsgs_no_qa_complete r.parts n
    exact absurd h hbase
  · rcases htail with rfl | rfl | rfl <;> simp_all

/-- The messages of one intro step are the shared part-loop messages
followed by nothing, a turn_complete, or the terminal intro_complete. -/
theorem introStep_msgs_shape (s : IntroState) (r : Response) :
    ∃ tail, (introStep s r).2.1
        = (if r.parts.isEmpty then [] else processPartsMsgs r.parts) ++ tail
      ∧ (tail = [] ∨ tail = [Msg.turn_complete] ∨ tail = [Msg.intro_complete]) := by
  unfold introStep
  by_cases htc : r.turn_complete
  · by_cases hcl : (introStateStep s r).is_closing
    · exact ⟨[Msg.intro_complete], by simp [htc, hcl], by simp⟩
    · exact ⟨[Msg.turn_complete], by simp [htc, hcl], by simp⟩
  · exact ⟨[], by simp [htc], by simp⟩

/-- The intro receive loop never emits a config. -/
theorem introRunLoop_countConfig (s : IntroState) (rs : List Response) :
    countConfig (introRunLoop s rs).2 = 0 := by
  induction rs generalizing s with
  | nil => rfl
  | cons r rest ih =>
    have hmsgs : countConfig (introStep s r).2.1 = 0 := by
      obtain ⟨tail, heq, htail⟩ := introStep_msgs_shape s r
      rw [heq, countConfig_append]
      have h1 : countConfig (if r.parts.isEmpty then [] else processPartsMsgs r.parts) = 0 := by
        split
        · rfl
        · exact processPartsMsgs_countConfig r.parts
      have h2 : countConfig tail = 0 := by
        rcases htail with rfl | rfl | rfl <;> simp [countConfig, List.countP_cons, isConfig]
      omega
    rcases h : introStep s r with ⟨s1, msgs, halt⟩
    rw [h] at hmsgs
    cases halt <;> simp [introRunLoop, h, countConfig_append, hmsgs, ih]

/-- The messages of one stopped step are the shared part-loop messages
followed by nothing, a turn_complete, or the terminal stopped_complete. -/
theorem stoppedStep_msgs_shape (s : StoppedState) (r : Response) :
    ∃ tail, (stoppedStep s r).2.1
        = (if r.parts.isEmpty then [] else processPartsMsgs r.parts) ++ tail
      ∧ (tail = [] ∨ tail = [Msg.turn_complete] ∨ tail = [Msg.stopped_complete]) := by
  unfold stoppedStep
  by_cases htc : r.turn_complete
  · by_cases hcl : (stoppedStateStep s r).is_closing
    · exact ⟨[Msg.stopped_complete], by simp [htc, hcl], by simp⟩
    · exact ⟨[Msg.turn_complete], by simp [htc, hcl], by simp⟩
  · exact ⟨[], by simp [htc], by simp⟩

/-- The stopped receive loop never emits a config. -/
theorem stoppedRunLoop_countConfig (s : StoppedState) (rs : List Response) :
    countConfig (stoppedRunLoop s rs).2 = 0 := by
  induction rs generalizing s with
  | nil => rfl
  | cons r rest ih =>
    have hmsgs : countConfig (stoppedStep s r).2.1 = 0 := by
      obtain ⟨tail, heq, htail⟩ := stoppedStep_msgs_shape s r
      rw [heq, countConfig_append]
      have h1 : countConfig (if r.parts.isEmpty then [] else processPartsMsgs r.parts) = 0 := by
        split
        · rfl
        · exact processPartsMsgs_countConfig r.parts
      have h2 : countConfig tail = 0 := by
        rcases htail with rfl | rfl | rfl <;> simp [countConfig, List.countP_cons, isConfig]
      omega
    rcases h : stoppedStep s r with ⟨s1, msgs, halt⟩
    rw [h] at hmsgs
    cases halt <;> simp [stoppedRunLoop, h, countConfig_append, hmsgs, ih]

/-- Every message chat's part loop emits is an audio frame or a
transcript. -/
theorem chatParts_shape (parts : List Part) :
    ∀ m ∈ chatParts parts,
      (∃ c, m = Msg.audioOut c) ∨ ∃ t, m = Msg.transcript t := by
  induction parts with
  | nil => intro m hm; simp [chatParts] at hm
  | cons p rest ih =>
    intro m hm
    obtain ⟨di, dt⟩ := p
    rw [chatParts, List.mem_append, List.mem_append] at hm
    rcases hm with (hm | hm) | hm
    · cases di with
      | none => simp at hm
      | some d =>
        simp at hm
        exact Or.inl ⟨d, hm⟩
    · cases dt with
      | none => simp at hm
      | some s =>
        by_cases hs : s = ""
        · simp [hs] at hm
        · simp [hs] at hm
          exact Or.inr ⟨_, hm⟩
    · exact ih m hm

/-- Chat's part loop never emits a config. -/
theorem chatParts_countConfig (parts : List Part) :
    countConfig (chatParts parts) = 0 := by
  unfold countConfig
  rw [List.countP_eq_zero]
  intro m hm
  rcases chatParts_shape parts m hm with ⟨c, rfl⟩ | ⟨t, rfl⟩ <;> simp [isConfig]

/-- Chat's receive loop never emits a config. -/
theorem chatLoop_countConfig (rs : List Response) :
    countConfig (chatLoop rs) = 0 := by
  induction rs with
  | nil => rfl
  | cons r rest ih =>
    have hstep : countConfig (chatStep r) = 0 := by
      unfold chatStep
      rw [countConfig_append]
      have h1 : countConfig (if r.parts.isEmpty then [] else chatParts r.parts) = 0 := by
        split
        · rfl
        · exact chatParts_countConfig r.parts
      have h2 : countConfig (if r.turn_complete then [Msg.turn_complete] else []) = 0 := by
        split <;> simp [countConfig, List.countP_cons, isConfig]
      omega
    simp [chatLoop, countConfig_append, hstep, ih]

/-- The trigger chunk loop emits only binary audio frames. -/
theorem chunkAudioGo_audio_only (fuel : Nat) (data : List Nat) (m : Msg)
    (h : m ∈ chunkAudioGo fuel data) : ∃ c, m = Msg.audioOut c := by
  induction fuel generalizing data with
  | zero =>
    cases data with
    | nil => simp [chunkAudioGo] at h
    | cons a rest =>
      simp [chunkAudioGo] at h
      exact ⟨a :: rest, h⟩
  | succ fuel ih =>
    cases data with
    | nil => simp [chunkAudioGo] at h
    | cons a rest =>
      simp [chunkAudioGo] at h
      rcases h with h | h
      · exact ⟨_, h⟩
      · exact ih _ h

/-- The trigger chunk loop never emits a config. -/
theorem chunkAudio_countConfig (data : List Nat) :
    countConfig (chunkAudio data) = 0 := by
  unfold countConfig
  rw [List.countP_eq_zero]
  intro m hm
  obtain ⟨c, rfl⟩ := chunkAudioGo_audio_only _ _ m hm
  simp [isConfig]

/-- An element picked by index-mod-length from a non-empty list is a
member of it. -/
theorem getD_mod_mem (l : List String) (n : Nat) (h : l ≠ []) :
    l.getD (n % l.length) "" ∈ l := by
  have hl : 0 < l.length := List.length_pos.mpr h
  have hm : n % l.length < l.length := Nat.mod_lt _ hl
  rw [List.getD_eq_getElem l "" hm]
  exact List.getElem_mem hm

/-- transcriptsOf distributes over append. -/
theorem transcriptsOf_append (a b : List Msg) :
    transcriptsOf (a ++ b) = transcriptsOf a ++ transcriptsOf b := by
  simp [transcriptsOf, List.filterMap_append]

/-- The transcripts one part contributes in the shared loop: its stripped
text when non-empty and unfiltered, nothing otherwise. -/
theorem partEmits_transcripts (p : Part) :
    transcriptsOf (partEmits p) =
      (match p.text with
       | some s =>
         if s = "" then []
         else if isFilteredMetadata (pyStrip s) then []
         else [pyStrip s]
       | none => []) := by
  obtain ⟨di, dt⟩ := p
  unfold partEmits
  rw [transcriptsOf_append]
  have haudio : transcriptsOf
      (match di with
       | some d => [Msg.audioOut d]
       | none => []) = [] := by
    cases di <;> simp [transcriptsOf]
  rw [haudio]
  cases dt with
  | none => simp [transcriptsOf]
  | some s =>
    by_cases hs : s = ""
    · simp [hs, transcriptsOf]
    · by_cases hf : isFilteredMetadata (pyStrip s)
      · simp [hs, hf, transcriptsOf]
      · simp [hs, hf, transcriptsOf]

/-- The shared part loop forwards exactly the transcripts the spec's
metadata-filter sentence describes. -/
theorem processPartsMsgs_transcripts (parts : List Part) :
    transcriptsOf (processPartsMsgs parts) = spec_forwarded_transcripts parts := by
  induction parts with
  | nil => rfl
  | cons p rest ih =>
    rw [processPartsMsgs, transcriptsOf_append, partEmits_transcripts, ih]
    unfold spec_forwarded_transcripts
    rw [List.filterMap_cons]
    cases hpt : p.text with
    | none => simp
    | some s =>
      by_cases hs : s = ""
      · simp [hs]
      · by_cases hf : isFilteredMetadata (pyStrip s)
        · simp [hs, hf]
        · simp [hs, hf]

/-- Chat's part loop forwards every non-empty text part verbatim. -/
theorem chatParts_transcripts (parts : List Part) :
    transcriptsOf (chatParts parts) = chat_forwarded_texts parts := by
  induction parts with
  | nil => rfl
  | cons p rest ih =>
    obtain ⟨di, dt⟩ := p
    rw [chatParts, transcriptsOf_append, transcriptsOf_append]
    have haudio : transcriptsOf
        (match di with
         | some d => [Msg.audioOut d]
         | none => []) = [] := by
      cases di <;> simp [transcriptsOf]
    rw [haudio, ih]
    unfold chat_forwarded_texts
    rw [List.filterMap_cons]
    cases dt with
    | none => simp [transcriptsOf]
    | some s =>
      by_cases hs : s = ""
      · simp [hs, transcriptsOf]
      · simp [hs, transcriptsOf]

/-- countConfig of a list headed by a config notification. -/
theorem countConfig_cons_config (m : String) (l : List Msg) :
    countConfig (Msg.config m :: l) = countConfig l + 1 := by
  simp [countConfig, List.countP_cons, isConfig]

/-- The qa state mutation never lowers `is_closing`. -/
theorem qaStateStep_mono (monitor : String → Bool) (s : QAState) (r : Response) :
    (qaStateStep monitor { s with is_closing := true } r).is_closing = true := by
  unfold qaStateStep
  dsimp only
  split_ifs <;> rfl

/-- The intro state mutation never lowers `is_closing`. -/
theorem introStateStep_mono (s : IntroState) (r : Response) :
    (introStateStep { s with is_closing := true } r).is_closing = true := by
  unfold introStateStep
  dsimp only
  split_ifs <;> rfl

/-- The stopped state mutation never lowers `is_closing`. -/
theorem stoppedStateStep_mono (s : StoppedState) (r : Response) :
    (stoppedStateStep { s with is_closing := true } r).is_closing = true := by
  unfold stoppedStateStep
  dsimp only
  split_ifs <;> rfl

/-- From the initial qa state, one response can never set `is_closing`
(the guard requires `turn_count > 1` and the first text-bearing response
only reaches `turn_count = 1`). -/
theorem qaStateStep_init_no_closing (monitor : String → Bool) (r : Response) :
    (qaStateStep monitor qaInitState r).is_closing = false := by
  unfold qaStateStep
  dsimp only
  split_ifs with h1 h2 h3
  · rfl
  · exact absurd h2.2 (by decide)
  · rfl
  · rfl

/-- While `true_turn_count = 0` the intro state mutation cannot set
`is_closing` and leaves `true_turn_count` at 0. -/
theorem introStateStep_zero_ttc (s : IntroState) (r : Response)
    (h1 : s.is_closing = false) (h2 : s.true_turn_count = 0) :
    (introStateStep s r).is_closing = false ∧ (introStateStep s r).true_turn_count = 0 := by
  unfold introStateStep
  dsimp only
  split_ifs with hp hft hkey
  · exact ⟨h1, h2⟩
  · exact absurd hkey.1 (by simp [h2])
  · exact ⟨h1, h2⟩
  · exact ⟨h1, h2⟩

/-- While `true_turn_count = 0` the stopped state mutation cannot set
`is_closing` and leaves `true_turn_count` at 0. -/
theorem stoppedStateStep_zero_ttc (s : StoppedState) (r : Response)
    (h1 : s.is_closing = false) (h2 : s.true_turn_count = 0) :
    (stoppedStateStep s r).is_closing = false ∧ (stoppedStateStep s r).true_turn_count = 0 := by
  unfold stoppedStateStep
  dsimp only
  split_ifs with hp hft hkey
  · exact ⟨h1, h2⟩
  · exact absurd hkey.1 (by simp [h2])
  · exact ⟨h1, h2⟩
  · exact ⟨h1, h2⟩

/-- Over a trace with no turn-complete events (i.e. entirely within the
opening backend turn), intro's receive loop never sets `is_closing`. -/
theorem introRunLoop_first_turn (pl : List (List Part)) :
    ∀ s : IntroState, s.is_closing = false → s.true_turn_count = 0 →
      ((introRunLoop s (pl.map (fun ps => Response.mk ps false))).1).is_closing = false
      ∧ ((introRunLoop s (pl.map (fun ps => Response.mk ps false))).1).true_turn_count = 0 := by
  induction pl with
  | nil => intro s h1 h2; exact ⟨h1, h2⟩
  | cons ps rest ih =>
    intro s h1 h2
    have hstep := introStateStep_zero_ttc s (Response.mk ps false) h1 h2
    have hintro : introStep s (Response.mk ps false)
        = (introStateStep s (Response.mk ps false),
            (if (Response.mk ps false).parts.isEmpty then []
             else processPartsMsgs (Response.mk ps false).parts), false) := by
      unfold introStep
      simp
    simp only [List.map_cons, introRunLoop, hintro]
    exact ih _ hstep.1 hstep.2

/-- Over a trace with no turn-complete events, stopped's receive loop
never sets `is_closing`. -/
theorem stoppedRunLoop_first_turn (pl : List (List Part)) :
    ∀ s : StoppedState, s.is_closing = false → s.true_turn_count = 0 →
      ((stoppedRunLoop s (pl.map (fun ps => Response.mk ps false))).1).is_closing = false
      ∧ ((stoppedRunLoop s (pl.map (fun ps => Response.mk ps false))).1).true_turn_count = 0 := by
  induction pl with
  | nil => intro s h1 h2; exact ⟨h1, h2⟩
  | cons ps rest ih =>
    intro s h1 h2
    have hstep := stoppedStateStep_zero_ttc s (Response.mk ps false) h1 h2
    have hstopped : stoppedStep s (Response.mk ps false)
        = (stoppedStateStep s (Response.mk ps false),
            (if (Response.mk ps false).parts.isEmpty then []
             else processPartsMsgs (Response.mk ps false).parts), false) := by
      unfold stoppedStep
      simp
    simp only [List.map_cons, stoppedRunLoop, hstopped]
    exact ih _ hstep.1 hstep.2

/-! ### Claims -/

/-- C1, counterexample: after one session-manager iteration starting from a
single running task of activation 0 and switching to chat, the previous
task is merely cancel-requested — not awaited to completion — while the
new activation's task is already created and running, so the previous
activation's tasks were not "cancelled AND awaited to completion" before
the next activation started. -/
theorem c1_counterexample :
    session_manager_iter [SMTask.mk 0 TaskStatus.running] 1 "chat"
      = ([SMTask.mk 0 TaskStatus.cancelRequested], [SMTask.mk 1 TaskStatus.running])
  ∧ (([SMTask.mk 0 TaskStatus.cancelRequested]).all
        (fun t => decide (t.status = TaskStatus.done))) = false := by
  decide

/-- C1, amended: before starting the next activation the control loop
requests cancellation of every previous task (running tasks become
cancel-requested, finished ones stay done) and immediately creates the new
activation's running task; it never awaits the cancelled tasks, so a
previously running task is not done when the new activation's task
starts. -/
theorem c1_cancel_requested_never_awaited (ts : List SMTask) (a : Nat) (m : String)
    (t : SMTask) :
    (session_manager_iter ts a m).1 = ts.map cancelTask
  ∧ (session_manager_iter ts a "chat").2 = [SMTask.mk a TaskStatus.running]
  ∧ (cancelTask { t with status := TaskStatus.running }).status = TaskStatus.cancelRequested
  ∧ (cancelTask { t with status := TaskStatus.done }).status = TaskStatus.done := by
  refine ⟨rfl, ?_, rfl, rfl⟩
  simp [session_manager_iter]

/-- C2, counterexample: the chat session's exception handler only logs
(it enqueues nothing), and the trigger session has no handler at all, so
it is not the case that every mode session enqueues an implicit
transition-to-Idle on failure. -/
theorem c2_counterexample :
    session_exception_handled SMode.chat = some []
  ∧ session_exception_handled SMode.trigger = none
  ∧ some ([] : List String) ≠ some ["idle"]
  ∧ (none : Option (List String)) ≠ some ["idle"] := by
  decide

/-- C2, amended: on an unhandled exception (including backend open
failure) the qa, intro and stopped sessions catch it, log it, and enqueue
"idle" on the control queue; the chat session catches and logs but
enqueues nothing; the trigger session does not catch exceptions at all.
In particular, with the backend open failing, qa/intro/stopped still
enqueue exactly ["idle"] while chat enqueues nothing. -/
theorem c2_exception_paths :
    session_exception_handled SMode.qa = some ["idle"]
  ∧ session_exception_handled SMode.intro = some ["idle"]
  ∧ session_exception_handled SMode.stopped = some ["idle"]
  ∧ session_exception_handled SMode.chat = some []
  ∧ session_exception_handled SMode.trigger = none
  ∧ (∀ (monitor : String → Bool) (rs : List Response),
      (run_qa_session_run demoStories "s" "1" false monitor rs).2 = ["idle"])
  ∧ (∀ rs : List Response, (run_intro_session_run demoStories "s" false rs).2 = ["idle"])
  ∧ (∀ rs : List Response, (run_stopped_session_run demoStories "s" "1" false rs).2 = ["idle"])
  ∧ (∀ (ook : Bool) (rs : List Response), (run_chat_session_run ook rs).2 = []) := by
  refine ⟨rfl, rfl, rfl, rfl, rfl, fun monitor rs => rfl, fun rs => rfl, fun rs => rfl, ?_⟩
  intro ook rs
  cases ook <;> rfl

/-- C4, counterexample: with `is_closing = true`, intro's and stopped's
inbound relays still forward the dequeued chunk (intro's check is
commented out, stopped never had one), contradicting the claim that the
relay exits without forwarding once closing has begun. -/
theorem c4_counterexample :
    intro_forward_audio_iter true [0] = some [0]
  ∧ stopped_forward_audio_iter true [0] = some [0]
  ∧ (some [0] : Option (List Nat)) ≠ none := by
  decide

/-- C4, amended: only QA's inbound relay honours `is_closing` — once the
flag is true it exits without forwarding the dequeued chunk, and while
false it forwards every chunk; intro's and stopped's inbound relays
forward every dequeued chunk regardless of `is_closing`. -/
theorem c4_forward_audio_per_mode :
    (∀ chunk : List Nat, qa_forward_audio_iter true chunk = none)
  ∧ (∀ chunk : List Nat, qa_forward_audio_iter false chunk = some chunk)
  ∧ (∀ (b : Bool) (chunk : List Nat), intro_forward_audio_iter b chunk = some chunk)
  ∧ (∀ (b : Bool) (chunk : List Nat), stopped_forward_audio_iter b chunk = some chunk) := by
  exact ⟨fun _ => rfl, fun _ => rfl, fun _ _ => rfl, fun _ _ => rfl⟩

/-- C7, counterexample: a trigger name matching no configured greeting
event makes the trigger session enqueue "chat" (the fallback at
server.py:873), not "idle", so the session does not unconditionally
request Idle for every trigger name. -/
theorem c7_counterexample :
    (run_trigger_session_run [("Morning Wake Up", ["Hello"])] "bedtime" "friend" 0
        (fun _ => none)).2 = ["chat"]
  ∧ (["chat"] : List String) ≠ ["idle"] := by
  decide

/-- C7, amended: the trigger session enqueues exactly "idle" whenever the
trigger name matches at least one configured greeting event (whether or
not audio could be rendered), and enqueues "chat" as a fallback when no
event matches. -/
theorem c7_trigger_puts (greetings : List (String × List String))
    (trigger child_name : String) (pick : Nat)
    (cached_audio : String → Option (List Nat)) :
    (run_trigger_session_run greetings trigger child_name pick cached_audio).2
      = if (collect_trigger_messages greetings trigger).isEmpty
        then ["chat"] else ["idle"] := by
  unfold run_trigger_session_run
  by_cases h : (collect_trigger_messages greetings trigger).isEmpty
  · simp [h]
  · simp only [h, if_false, ite_false]
    rcases cached_audio (pyReplace (trigger_chosen_message greetings trigger pick)
        "Kian" child_name) with _ | data
    · rfl
    · dsimp only
      by_cases hd : data.isEmpty <;> simp [hd]

/-- C8: `is_closing` is monotonic within an activation: every operation
that touches it — the qa/intro/stopped response handlers (state mutation,
classifier and lexical detection, turn-complete handling) and the three
timeout checkers — preserves `is_closing = true`; no operation ever resets
it to false. -/
theorem c8_is_closing_monotonic :
    (∀ (monitor : String → Bool) (s : QAState) (r : Response),
        ((qaStep monitor { s with is_closing := true } r).1).is_closing = true)
  ∧ (∀ (s : IntroState) (r : Response),
        ((introStep { s with is_closing := true } r).1).is_closing = true)
  ∧ (∀ (s : StoppedState) (r : Response),
        ((stoppedStep { s with is_closing := true } r).1).is_closing = true)
  ∧ (∀ (b1 b2 : Bool) (s : StoppedState),
        (check_stopped_timeout_iter b1 b2 { s with is_closing := true }).is_closing = true)
  ∧ (∀ (b : Bool) (s : QAState), check_qa_timeout_iter b s = s)
  ∧ (∀ (b : Bool) (s : IntroState), check_intro_timeout_iter b s = s) := by
  refine ⟨?_, ?_, ?_, ?_, fun _ _ => rfl, fun _ _ => rfl⟩
  · intro monitor s r
    unfold qaStep
    dsimp only
    split_ifs <;> simp [qaStateStep_mono]
  · intro s r
    unfold introStep
    dsimp only
    split_ifs <;> simp [introStateStep_mono]
  · intro s r
    unfold stoppedStep
    dsimp only
    split_ifs <;> simp [stoppedStateStep_mono]
  · intro b1 b2 s
    unfold check_stopped_timeout_iter
    split_ifs <;> rfl

/-- C3, counterexample: "**scene**" matches the metadata filter (it starts
with "**"), yet the chat receive loop forwards it to the client as a
transcript — chat applies no metadata filter — so filtered text is not
"never forwarded" across all mode activations. -/
theorem c3_counterexample :
    isFilteredMetadata "**scene**" = true
  ∧ Msg.transcript "**scene**" ∈
      (run_chat_session_run true [Response.mk [Part.mk none (some "**scene**")] false]).1 := by
  constructor
  · decide
  · decide

/-- C3, amended: in the qa, intro and stopped receive loops, the forwarded
transcripts are exactly the stripped texts of the non-empty text chunks
that do not start with "**" or "(" and contain no filter keyword —
matching chunks are never forwarded, all others are; the chat receive loop
instead forwards every non-empty text chunk verbatim, unfiltered. -/
theorem c3_metadata_filter_per_mode :
    (∀ parts : List Part,
        transcriptsOf (processPartsMsgs parts) = spec_forwarded_transcripts parts)
  ∧ (∀ parts : List Part,
        transcriptsOf (chatParts parts) = chat_forwarded_texts parts) :=
  ⟨processPartsMsgs_transcripts, chatParts_transcripts⟩

/-- C5, counterexample: within the opening backend turn (no turn-complete
event has occurred), two text-bearing responses suffice for the qa lexical
detector to fire — qa's guard counts responses, not turns — so the closing
detector is applied to first-turn text. -/
theorem c5_counterexample :
    ((qaRunLoop (fun _ => false) qaInitState
        [Response.mk [Part.mk none (some "hi")] false,
         Response.mk [Part.mk none (some "that was so much fun")] false]).1).is_closing
      = true := by
  decide

/-- C5, amended: intro and stopped exempt the whole opening turn — as long
as no turn-complete event has arrived, `true_turn_count` stays 0 and
`is_closing` stays false; qa only exempts the first text-bearing response
(from the initial state a single response can never set `is_closing`, but
later responses of the same opening turn can). -/
theorem c5_first_turn_exemption :
    (∀ (monitor : String → Bool) (r : Response),
        (qaStateStep monitor qaInitState r).is_closing = false)
  ∧ (∀ pl : List (List Part),
        ((introRunLoop introInitState
            (pl.map (fun ps => Response.mk ps false))).1).is_closing = false)
  ∧ (∀ pl : List (List Part),
        ((stoppedRunLoop stoppedInitState
            (pl.map (fun ps => Response.mk ps false))).1).is_closing = false) := by
  refine ⟨qaStateStep_init_no_closing, ?_, ?_⟩
  · intro pl
    exact (introRunLoop_first_turn pl introInitState rfl rfl).1
  · intro pl
    exact (stoppedRunLoop_first_turn pl stoppedInitState rfl rfl).1

/-- C6, counterexample: on the story-lookup-failure path the qa activation
emits only an error notification and no config at all, so it is not the
case that every path of every activation emits exactly one config. -/
theorem c6_counterexample :
    (run_qa_session_run [] "cinderella" "1" true (fun _ => false) []).1
      = [Msg.errorMsg "Story/Chapter not found"]
  ∧ countConfig (run_qa_session_run [] "cinderella" "1" true (fun _ => false) []).1 = 0
  ∧ (0 : Nat) ≠ 1 := by
  refine ⟨by decide, by decide, by decide⟩

/-- C6, amended: on every activation path that passes its lookups, exactly
one config notification is emitted and it is the very first message (hence
before any audio or transcript of the activation): chat always; qa, intro
and stopped whenever the story (and chapter) lookups succeed — lookup
failure emits a lone error and no config; trigger when a greeting matched
and cached audio was available — otherwise it emits a lone error or
nothing. -/
theorem c6_config_discipline :
    (∀ (ook : Bool) (rs : List Response),
        (run_chat_session_run ook rs).1.head? = some (Msg.config "chat")
      ∧ countConfig (run_chat_session_run ook rs).1 = 1)
  ∧ (∀ (stories : List (String × Story)) (sid cid : String) (ook : Bool)
        (monitor : String → Bool) (rs : List Response),
        (run_qa_session_run stories sid cid ook monitor rs).1
            = [Msg.errorMsg "Story/Chapter not found"]
      ∨ ((run_qa_session_run stories sid cid ook monitor rs).1.head?
            = some (Msg.config "qa")
        ∧ countConfig (run_qa_session_run stories sid cid ook monitor rs).1 = 1))
  ∧ (∀ (stories : List (String × Story)) (sid : String) (ook : Bool)
        (rs : List Response),
        (run_intro_session_run stories sid ook rs).1 = [Msg.errorMsg "Story not found"]
      ∨ ((run_intro_session_run stories sid ook rs).1.head? = some (Msg.config "intro")
        ∧ countConfig (run_intro_session_run stories sid ook rs).1 = 1))
  ∧ (∀ (stories : List (String × Story)) (sid cid : String) (ook : Bool)
        (rs : List Response),
        (run_stopped_session_run stories sid cid ook rs).1
            = [Msg.errorMsg "Story/Chapter not found"]
      ∨ ((run_stopped_session_run stories sid cid ook rs).1.head?
            = some (Msg.config "stopped")
        ∧ countConfig (run_stopped_session_run stories sid cid ook rs).1 = 1))
  ∧ (∀ (greetings : List (String × List String)) (trigger cn : String) (pick : Nat)
        (ca : String → Option (List Nat)),
        (run_trigger_session_run greetings trigger cn pick ca).1
            = [Msg.errorMsg ("No audio for " ++ trigger)]
      ∨ (run_trigger_session_run greetings trigger cn pick ca).1 = []
      ∨ ((run_trigger_session_run greetings trigger cn pick ca).1.head?
            = some (Msg.config "trigger")
        ∧ countConfig (run_trigger_session_run greetings trigger cn pick ca).1 = 1)) := by
  refine ⟨?_, ?_, ?_, ?_, ?_⟩
  · intro ook rs
    cases ook
    · exact ⟨rfl, rfl⟩
    · refine ⟨rfl, ?_⟩
      show countConfig (Msg.config "chat" :: chatLoop rs) = 1
      rw [countConfig_cons_config, chatLoop_countConfig]
  · intro stories sid cid ook monitor rs
    unfold run_qa_session_run
    cases hs : get_story stories sid with
    | none => exact Or.inl rfl
    | some st =>
      dsimp only
      cases hc : st.get_chapter cid with
      | none => exact Or.inl rfl
      | some ch =>
        dsimp only
        refine Or.inr ?_
        cases ook
        · exact ⟨rfl, rfl⟩
        · refine ⟨rfl, ?_⟩
          show countConfig (Msg.config "qa" :: (qaRunLoop monitor qaInitState rs).2) = 1
          rw [countConfig_cons_config, qaRunLoop_countConfig]
  · intro stories sid ook rs
    unfold run_intro_session_run
    cases hs : get_story stories sid with
    | none => exact Or.inl rfl
    | some st =>
      dsimp only
      refine Or.inr ?_
      cases ook
      · exact ⟨rfl, rfl⟩
      · refine ⟨rfl, ?_⟩
        show countConfig (Msg.config "intro" :: (introRunLoop introInitState rs).2) = 1
        rw [countConfig_cons_config, introRunLoop_countConfig]
  · intro stories sid cid ook rs
    unfold run_stopped_session_run
    cases hs : get_story stories sid with
    | none => exact Or.inl rfl
    | some st =>
      dsimp only
      cases hc : st.get_chapter cid with
      | none => exact Or.inl rfl
      | some ch =>
        dsimp only
        refine Or.inr ?_
        cases ook
        · exact ⟨rfl, rfl⟩
        · refine ⟨rfl, ?_⟩
          show countConfig (Msg.config "stopped" :: (stoppedRunLoop stoppedInitState rs).2) = 1
          rw [countConfig_cons_config, stoppedRunLoop_countConfig]
  · intro greetings trigger cn pick ca
    unfold run_trigger_session_run
    by_cases hm : (collect_trigger_messages greetings trigger).isEmpty
    · dsimp only
      rw [if_pos hm]
      exact Or.inl rfl
    · dsimp only
      rw [if_neg hm]
      rcases hca : ca (pyReplace (trigger_chosen_message greetings trigger pick) "Kian" cn)
        with _ | data
      · exact Or.inr (Or.inl rfl)
      · dsimp only
        by_cases hd : data.isEmpty
        · rw [if_pos hd]
          exact Or.inr (Or.inl rfl)
        · rw [if_neg hd]
          refine Or.inr (Or.inr ⟨rfl, ?_⟩)
          show countConfig (Msg.config "trigger" :: (chunkAudio data ++ [Msg.turn_complete])) = 1
          rw [countConfig_cons_config, countConfig_append, chunkAudio_countConfig]
          decide

/-- C9: an empty trigger name — as produced by a "trigger" command with no
"trigger" field — matches every configured greeting event (empty-substring
containment), the collected messages are the union of all events' message
lists, and when that union is non-empty the trigger session picks a member
of the union and never reports a lookup-failure error. -/
theorem c9_empty_trigger_matches_all (g : List (String × List String)) (pick : Nat)
    (child_name : String) (cached_audio : String → Option (List Nat)) :
    trigger_command_value none = ""
  ∧ (g.all (fun e => containsSubstr (pyLower "") (pyLower e.1)) = true)
  ∧ collect_trigger_messages g "" = all_greeting_messages g
  ∧ (all_greeting_messages g ≠ [] →
      trigger_chosen_message g "" pick ∈ all_greeting_messages g
      ∧ ∀ s, Msg.errorMsg s ∉ (run_trigger_session_run g "" child_name pick cached_audio).1) := by
  have hlower : pyLower "" = "" := rfl
  have hcollect : collect_trigger_messages g "" = all_greeting_messages g := by
    induction g with
    | nil => rfl
    | cons e rest ih =>
      obtain ⟨event, msgs⟩ := e
      have hc : containsSubstr (pyLower "") (pyLower event) = true := by
        rw [hlower]
        exact containsSubstr_nil _
      simp [collect_trigger_messages, all_greeting_messages, hc, ih]
  refine ⟨rfl, ?_, hcollect, ?_⟩
  · rw [List.all_eq_true]
    intro e he
    rw [hlower]
    exact containsSubstr_nil _
  · intro hne
    have hcol_ne : collect_trigger_messages g "" ≠ [] := by
      rw [hcollect]; exact hne
    constructor
    · unfold trigger_chosen_message
      rw [hcollect] at hcol_ne ⊢
      exact getD_mod_mem _ _ hcol_ne
    · intro s hs
      rcases hcol : collect_trigger_messages g "" with _ | ⟨a, as⟩
      · exact absurd hcol hcol_ne
      · rw [run_trigger_session_run, hcol] at hs
        rw [if_neg (by simp : ¬((a :: as : List String).isEmpty = true))] at hs
        dsimp only at hs
        rcases hca : cached_audio (pyReplace (trigger_chosen_message g "" pick) "Kian" child_name)
          with _ | data
        · rw [hca] at hs
          simp at hs
        · rw [hca] at hs
          dsimp only at hs
          by_cases hd : data.isEmpty
          · rw [if_pos hd] at hs
            simp at hs
          · rw [if_neg hd] at hs
            dsimp only at hs
            simp only [List.mem_cons, List.mem_append] at hs
            rcases hs with (hs | hs) | hs
            · exact Msg.noConfusion hs
            · obtain ⟨c, hc⟩ := chunkAudioGo_audio_only _ _ _ hs
              exact Msg.noConfusion hc
            · simp at hs

/-- C9, witness: a concrete one-event table with one message has a
non-empty union, and the empty trigger's chosen message is a member of
that union. -/
theorem c9_empty_trigger_matches_all_witness :
    all_greeting_messages [("Morning", ["Hi"])] ≠ []
  ∧ trigger_chosen_message [("Morning", ["Hi"])] "" 0
      ∈ all_greeting_messages [("Morning", ["Hi"])] :=
  ⟨by decide,
   ((c9_empty_trigger_matches_all [("Morning", ["Hi"])] 0 "kid"
      (fun _ => none)).2.2.2 (by decide)).1⟩

/-- C10: whatever the backend says and whatever the completion monitor
answers, every terminal qa_complete the QA receive loop emits carries the
constant score 100 — the score is never computed from the dialogue (and
the QA session never consults Question.check_answer). -/
theorem c10_qa_score_constant (monitor : String → Bool) (s : QAState)
    (rs : List Response) (n : Nat)
    (h : Msg.qa_complete n ∈ (qaRunLoop monitor s rs).2) : n = 100 := by
  induction rs generalizing s with
  | nil => simp [qaRunLoop] at h
  | cons r rest ih =>
    rcases hstep : qaStep monitor s r with ⟨s1, msgs, halt⟩
    have hscore : ∀ k, Msg.qa_complete k ∈ msgs → k = 100 := by
      intro k hk
      have hlem := qaStep_score monitor s r k
      rw [hstep] at hlem
      exact hlem hk
    cases halt
    · simp only [qaRunLoop, hstep] at h
      rw [List.mem_append] at h
      rcases h with h | h
      · exact hscore n h
      · exact ih _ h
    · simp only [qaRunLoop, hstep] at h
      exact hscore n h

/-- C10, witness: a concrete dialogue whose second response makes the
monitor fire and completes the turn does emit qa_complete, and the theorem
instantiated there yields score 100. -/
theorem c10_qa_score_constant_witness :
    Msg.qa_complete 100 ∈ (qaRunLoop (fun _ => true) qaInitState
      [Response.mk [Part.mk none (some "hi")] false,
       Response.mk [Part.mk none (some "bye")] true]).2
  ∧ 100 = 100 :=
  ⟨by decide,
   c10_qa_score_constant (fun _ => true) qaInitState
     [Response.mk [Part.mk none (some "hi")] false,
      Response.mk [Part.mk none (some "bye")] true] 100 (by decide)⟩

end EchoSrv
